import Mathlib

/-!
A shallow embedding of the HallOfFame pixel-grid server (Express + Sequelize).

Modelling conventions, fixed once for the whole file:

* Money. The source stores prices as JS floats denominating dollars and uses
  the decimal constants 0.001 (takeover epsilon), 0.01 (bulk total tolerance)
  and cents/100 (webhook amounts).  We model money as integers counting mils
  (thousandths of a dollar), in which every one of those constants is exact:
  the epsilon is 1, the tolerance is 10, and an amount of c cents is 10*c mils.
* Time. Timestamps are integers (days); the security window added by
  setDate(getDate() + 7) is the constant 7.
* JSON/JS values. A request field of type Option String is none when the JS
  value is falsy (absent, null or the empty string); a field of type
  Option Int coming through parseInt is none when the parse yields NaN; a
  numeric JSON field is Option Int with none for an absent value, and the
  places where JS truthiness also treats the number 0 as missing test
  that explicitly (falsyNum).
* Database. The Pixel table (src/server/src/models + migrations) is a list of
  Cell values with a unique index on (x, y); pixel_history is a list of
  HistoryEntry; bulk_payment_pixels (src/server/src/models/BulkPaymentPixels.js)
  is a list of BulkRow.  Sequelize reads/writes are explicit state passing.
* Each route is a function from the database state and the decoded request to
  a RouteOut: the new state, the HTTP response (an inductive mirroring the
  distinct res.status/res.json exits of the route) and the list of WebSocket
  messages pushed to subscribers (global.wss broadcast).
-/

/-- One row of the Pixels table.  Fields follow the Sequelize model
(src/unnamed/part_007: x, y, color, price, ownerId, ownerName, link,
lastUpdated, isSecured, securityExpiresAt; unique index on (x, y)).
The model has no settlementRef or paymentIntentId column. -/
structure Cell where
  x : Int
  y : Int
  color : String
  price : Int
  ownerId : Option String
  ownerName : Option String
  link : Option String
  isSecured : Bool
  securityExpiresAt : Option Int
  lastUpdated : Int
deriving Repr, DecidableEq

/-- One row of the pixel_history table (PixelHistory model in
src/unnamed/part_007).  paymentIntentId is taken from
existingPixel.paymentIntentId at the single create site (src/unnamed/part_003,
router.post); the Pixel model has no such column, so the value written is
always null. -/
structure HistoryEntry where
  x : Int
  y : Int
  color : String
  price : Int
  ownerId : Option String
  ownerName : Option String
  link : Option String
  isSecured : Bool
  securityExpiresAt : Option Int
  paymentIntentId : Option String
  createdAt : Int
deriving Repr, DecidableEq

/-- One row of bulk_payment_pixels (src/server/src/models/BulkPaymentPixels.js). -/
structure BulkRow where
  sessionId : String
  x : Int
  y : Int
  color : String
  price : Int
  withSecurity : Bool
  createdAt : Int
deriving Repr, DecidableEq

/-- The durable state the routes read and write: the three tables. -/
structure GridState where
  pixels : List Cell
  history : List HistoryEntry
  bulkRows : List BulkRow
deriving Repr, DecidableEq

/-- A pixelUpdate WebSocket message.  The three trailing fields are Option
wrappers whose outer none means the key is absent from the JSON object:
the single-pixel broadcast (routes/pixels.js POST) includes link but not
isSecured/securityExpiresAt, while the bulk-quote broadcast
(routes/payments.js create-bulk-payment-intent) includes
isSecured/securityExpiresAt but not link. -/
structure PixelUpdateMsg where
  x : Int
  y : Int
  color : String
  price : Int
  ownerId : Option String
  ownerName : Option String
  lastUpdated : Int
  link : Option (Option String)
  isSecured : Option Bool
  securityExpiresAt : Option (Option Int)
deriving Repr, DecidableEq

/-- PIXEL_CONFIG (required from ../config/constants, not present in the
repository snapshot; the routes use only minPrice).  minPrice acts both as
the floor price of an unowned pixel and as the takeover increment. -/
structure Config where
  minPrice : Int
deriving Repr, DecidableEq

/-- Result of one route invocation: new database state, HTTP response,
and the WebSocket messages broadcast to all connected clients. -/
structure RouteOut (ρ : Type) where
  state : GridState
  resp : ρ
  msgs : List PixelUpdateMsg
deriving Repr, DecidableEq

/-- The seven-day security window added by setDate(getDate() + 7). -/
def securityWindowDays : Int := 7

/-- Pixel.findOne({ where: { x, y } }). -/
def findPixel (px : List Cell) (x y : Int) : Option Cell :=
  px.find? (fun c => c.x == x && c.y == y)

/-- Updating the row(s) at (x, y) in place; the table carries a unique
index on (x, y), so at most one row matches. -/
def updateAt (px : List Cell) (x y : Int) (f : Cell → Cell) : List Cell :=
  px.map (fun c => if c.x == x && c.y == y then f c else c)

/-- JS truthiness on a numeric field: absent or the number 0. -/
def falsyNum (v : Option Int) : Bool :=
  match v with
  | none => true
  | some n => n == 0

/-- existingPixel.isSecured && existingPixel.securityExpiresAt > now
(a null expiry compares false). -/
def securedActive (c : Cell) (now : Int) : Bool :=
  c.isSecured &&
    match c.securityExpiresAt with
    | some t => now < t
    | none => false

/-- Pixel.count({ where: { ownerId: browserId, price: 0 } })
(routes/pixels.js GET /free-count/:browserId). -/
def freeCount (s : GridState) (browserId : String) : Nat :=
  (s.pixels.filter (fun c => c.ownerId == some browserId && c.price == 0)).length

/-- Decoded body of POST /api/payments/create-payment-intent
(src/server/src/routes/payments.js).  x and y are used raw (no parseInt);
price is the JSON number or none when absent. -/
structure QuoteReq where
  x : Option Int
  y : Option Int
  color : Option String
  price : Option Int
  ownerId : Option String
  ownerName : Option String
deriving Repr, DecidableEq

/-- The distinct exits of create-payment-intent.  bidTooLow carries the
minimumBid of the response body, plus currentPrice when the pixel exists
(the two res.status(400) bodies at the minimum-bid check); clientSecret is
the 200 response after the Stripe intent is created. -/
inductive QuoteResp where
  | missingFields (fields : List String)
  | invalidPrice
  | bidTooLow (minimumBid : Int) (currentPrice : Option Int)
  | clientSecret
deriving Repr, DecidableEq

/-- POST /api/payments/create-payment-intent.  The Stripe-key presence check
is skipped (the key is assumed configured); the Stripe intent creation
itself is external and produces no database write. -/
def createPaymentIntent (cfg : Config) (s : GridState) (r : QuoteReq) : RouteOut QuoteResp :=
  let missing : List String :=
    (if r.x.isNone then ["x"] else []) ++
    (if r.y.isNone then ["y"] else []) ++
    (if r.color.isNone then ["color"] else []) ++
    (if r.ownerId.isNone then ["ownerId"] else []) ++
    (if falsyNum r.price then ["price"] else [])
  if missing ≠ [] then ⟨s, .missingFields missing, []⟩
  else
    match r.x, r.y, r.price with
    | some x, some y, some p =>
      if p ≤ 0 then ⟨s, .invalidPrice, []⟩
      else
        match findPixel s.pixels x y with
        | some ex =>
          if p < ex.price + cfg.minPrice then
            ⟨s, .bidTooLow (ex.price + cfg.minPrice) (some ex.price), []⟩
          else ⟨s, .clientSecret, []⟩
        | none =>
          if p < cfg.minPrice then ⟨s, .bidTooLow cfg.minPrice none, []⟩
          else ⟨s, .clientSecret, []⟩
    | _, _, _ => ⟨s, .missingFields missing, []⟩

/-- The pixelUpdate message built by routes/pixels.js POST / (and by the
matching route variant in src/unnamed/part_003): it carries link but no
isSecured/securityExpiresAt keys. -/
def postMsg (c : Cell) : PixelUpdateMsg :=
  { x := c.x, y := c.y, color := c.color, price := c.price, ownerId := c.ownerId,
    ownerName := c.ownerName, lastUpdated := c.lastUpdated,
    link := some c.link, isSecured := none, securityExpiresAt := none }

/-- The pixelUpdate message built by create-bulk-payment-intent
(routes/payments.js): it carries isSecured/securityExpiresAt but no link key. -/
def bulkMsg (c : Cell) : PixelUpdateMsg :=
  { x := c.x, y := c.y, color := c.color, price := c.price, ownerId := c.ownerId,
    ownerName := c.ownerName, lastUpdated := c.lastUpdated,
    link := none, isSecured := some c.isSecured, securityExpiresAt := some c.securityExpiresAt }

/-- Decoded body of POST /api/pixels (src/server/src/routes/pixels.js).
x and y are parseInt results (none for NaN); price is used raw with no
presence check in this route, so it is modelled as a plain number. -/
structure PostReq where
  x : Option Int
  y : Option Int
  color : String
  price : Int
  ownerId : Option String
  ownerName : Option String
  paymentIntentId : Option String
  link : Option String
  withSecurity : Bool
deriving Repr, DecidableEq

/-- The distinct exits of routes/pixels.js POST /. -/
inductive PostResp where
  | invalidCoordinates
  | securedRejection (securedUntil : Option Int)
  | priceTooLow (currentPrice : Int)
  | paymentNotSuccessful
  | ok (created : Bool)
deriving Repr, DecidableEq

/-- The payment verification step: when a paymentIntentId is supplied the
route retrieves the intent and rejects any status other than succeeded.
stripeStatus is the external gateway lookup (retrieval errors are modelled
as a non-succeeded status). -/
def stripeRejects (pid : Option String) (stripeStatus : String → String) : Bool :=
  match pid with
  | some p => !(stripeStatus p == "succeeded")
  | none => false

/-- The field update performed on an existing pixel by routes/pixels.js
POST / (color, price, ownerId, ownerName, link, lastUpdated, isSecured,
securityExpiresAt; everything else untouched). -/
def postUpd (r : PostReq) (now : Int) (c : Cell) : Cell :=
  { c with color := r.color, price := r.price, ownerId := r.ownerId,
           ownerName := r.ownerName, link := r.link, lastUpdated := now,
           isSecured := r.withSecurity,
           securityExpiresAt := if r.withSecurity then some (now + securityWindowDays) else none }

/-- Success path of routes/pixels.js POST / on an existing pixel: update in
place and broadcast the saved pixel. -/
def postFinishExisting (s : GridState) (x y : Int) (r : PostReq) (ex : Cell) (now : Int) :
    RouteOut PostResp :=
  ⟨{ s with pixels := updateAt s.pixels x y (postUpd r now) }, .ok false, [postMsg (postUpd r now ex)]⟩

/-- Success path of routes/pixels.js POST / on an absent pixel: create the
row (lastUpdated takes the DATE NOW default) and broadcast it. -/
def postFinishNew (s : GridState) (x y : Int) (r : PostReq) (now : Int) : RouteOut PostResp :=
  let c : Cell :=
    { x := x, y := y, color := r.color, price := r.price, ownerId := r.ownerId,
      ownerName := r.ownerName, link := r.link, isSecured := r.withSecurity,
      securityExpiresAt := if r.withSecurity then some (now + securityWindowDays) else none,
      lastUpdated := now }
  ⟨{ s with pixels := s.pixels ++ [c] }, .ok true, [postMsg c]⟩

/-- POST /api/pixels (src/server/src/routes/pixels.js, router.post).
Order of checks as in the source: coordinate parse, active-security
rejection, minimum-price check with the 0.001 epsilon (= 1 mil), payment
verification, then findOrCreate/update, then broadcast. -/
def postPixel (cfg : Config) (s : GridState) (r : PostReq) (stripeStatus : String → String)
    (now : Int) : RouteOut PostResp :=
  match r.x, r.y with
  | some x, some y =>
    match findPixel s.pixels x y with
    | some ex =>
      if securedActive ex now then ⟨s, .securedRejection ex.securityExpiresAt, []⟩
      else if r.price < ex.price + cfg.minPrice - 1 then ⟨s, .priceTooLow ex.price, []⟩
      else if stripeRejects r.paymentIntentId stripeStatus then ⟨s, .paymentNotSuccessful, []⟩
      else postFinishExisting s x y r ex now
    | none =>
      if stripeRejects r.paymentIntentId stripeStatus then ⟨s, .paymentNotSuccessful, []⟩
      else postFinishNew s x y r now
  | _, _ => ⟨s, .invalidCoordinates, []⟩

/-- Metadata of a payment_intent.succeeded event on the single-pixel branch
(routes/payments.js webhook).  For x and y, none covers a missing or empty
metadata string as well as a parseInt NaN (all of which make the handler
break without touching the database); for the string fields, none is a
falsy value. -/
structure WebhookMeta where
  x : Option Int
  y : Option Int
  color : Option String
  ownerId : Option String
  ownerName : Option String
deriving Repr, DecidableEq

/-- The update applied by the webhook single-pixel branch to an existing
pixel: color, price, ownerId, ownerName, lastUpdated; link and the security
fields are untouched. -/
def webhookUpd (color oid oname : String) (price now : Int) (c : Cell) : Cell :=
  { c with color := color, price := price, ownerId := some oid,
           ownerName := some oname, lastUpdated := now }

/-- The defaults row inserted by the webhook findOrCreate when the pixel is
absent: link null, isSecured at its false column default, no expiry. -/
def webhookNewCell (x y : Int) (color oid oname : String) (price now : Int) : Cell :=
  { x := x, y := y, color := color, price := price, ownerId := some oid,
    ownerName := some oname, link := none, isSecured := false,
    securityExpiresAt := none, lastUpdated := now }

/-- The database effect of the webhook single-pixel branch: findOrCreate,
then the unconditional update when the row already existed. -/
def webhookApply (px : List Cell) (x y : Int) (color oid oname : String)
    (price now : Int) : List Cell :=
  match findPixel px x y with
  | some _ => updateAt px x y (webhookUpd color oid oname price now)
  | none => px ++ [webhookNewCell x y color oid oname price now]

/-- Single-pixel branch of the payment_intent.succeeded webhook
(routes/payments.js, lines 404-451): break on any missing or unparsable
metadata field, otherwise findOrCreate at (x, y) with
price = amount / 100 dollars (= 10 * amountCents mils) and the
unconditional update when the pixel already exists.  The branch contains no
duplicate check, no price comparison, no security check, no history write
and no broadcast; the handler always acknowledges with received: true. -/
def webhookSingle (s : GridState) (m : WebhookMeta) (amountCents now : Int) : RouteOut Unit :=
  match m.x, m.y, m.color, m.ownerId, m.ownerName with
  | some x, some y, some color, some oid, some oname =>
    ⟨{ s with pixels := webhookApply s.pixels x y color oid oname (amountCents * 10) now },
     (), []⟩
  | _, _, _, _, _ => ⟨s, (), []⟩

/-- Bulk branch of the payment_intent.succeeded webhook (routes/payments.js,
lines 382-403): with valid owner metadata it only runs
Pixel.findAll({ where: { paymentIntentId } }) and logs the count; it never
writes pixels, history or bulk_payment_pixels.  The response flag records
whether the metadata was valid. -/
def webhookBulk (s : GridState) (ownerId ownerName : Option String) (_pid : String) :
    RouteOut Bool :=
  match ownerId, ownerName with
  | some _, some _ => ⟨s, true, []⟩
  | _, _ => ⟨s, false, []⟩

/-- One element of the pixels array of POST /create-bulk-payment-intent
(routes/payments.js).  The per-pixel validation uses JS truthiness on x, y
and price, so the number 0 is treated as missing there. -/
structure BulkPixelReq where
  x : Option Int
  y : Option Int
  color : Option String
  price : Option Int
  withSecurity : Bool
deriving Repr, DecidableEq

/-- The distinct error exits of create-bulk-payment-intent. -/
inductive BulkErr where
  | invalidPixels
  | missingOwner
  | invalidPixelData
  | securedPixel (x y : Int) (securedUntil : Option Int)
  | bidTooLow (x y : Int) (minimumBid : Int)
  | totalMismatch
deriving Repr, DecidableEq

/-- The per-pixel validation loop of create-bulk-payment-intent: truthiness
check, secured check, minimum-bid check, accumulating the expected total. -/
def bulkValidate (cfg : Config) (px : List Cell) (now : Int) :
    List BulkPixelReq → Except BulkErr Int
  | [] => .ok 0
  | p :: rest =>
    if falsyNum p.x || falsyNum p.y || p.color.isNone || falsyNum p.price then
      .error .invalidPixelData
    else
      match p.x, p.y, p.price with
      | some x, some y, some pr =>
        match findPixel px x y with
        | some ex =>
          if securedActive ex now then .error (.securedPixel x y ex.securityExpiresAt)
          else if pr < ex.price + cfg.minPrice then
            .error (.bidTooLow x y (ex.price + cfg.minPrice))
          else (bulkValidate cfg px now rest).map (fun t => pr + t)
        | none =>
          if pr < cfg.minPrice then .error (.bidTooLow x y cfg.minPrice)
          else (bulkValidate cfg px now rest).map (fun t => pr + t)
      | _, _, _ => .error .invalidPixelData

/-- The newPixels element built by create-bulk-payment-intent for one staged
pixel: a merge over the pre-fetched existing row when there is one (link is
kept, since bulkCreate updateOnDuplicate lists only color, price, ownerId,
ownerName, lastUpdated, isSecured, securityExpiresAt), otherwise a fresh row
with a null link.  secExp is the shared expiry computed once from
pixels[0].withSecurity. -/
def stagePixel (px : List Cell) (ownerId ownerName : Option String) (secExp : Option Int)
    (now : Int) (p : BulkPixelReq) : Cell :=
  let x := p.x.getD 0
  let y := p.y.getD 0
  let color := p.color.getD ""
  let price := p.price.getD 0
  match findPixel px x y with
  | some ex =>
    { ex with color := color, price := price, ownerId := ownerId, ownerName := ownerName,
              lastUpdated := now, isSecured := p.withSecurity,
              securityExpiresAt := if p.withSecurity then secExp else none }
  | none =>
    { x := x, y := y, color := color, price := price, ownerId := ownerId,
      ownerName := ownerName, link := none, isSecured := p.withSecurity,
      securityExpiresAt := if p.withSecurity then secExp else none, lastUpdated := now }

/-- Pixel.bulkCreate(newPixels, { updateOnDuplicate: [...] }) applied one
staged row at a time: update the listed fields on a coordinate clash,
insert otherwise. -/
def applyStaged (px : List Cell) (c : Cell) : List Cell :=
  match findPixel px c.x c.y with
  | some _ =>
    updateAt px c.x c.y (fun old =>
      { old with color := c.color, price := c.price, ownerId := c.ownerId,
                 ownerName := c.ownerName, lastUpdated := c.lastUpdated,
                 isSecured := c.isSecured, securityExpiresAt := c.securityExpiresAt })
  | none => px ++ [c]

/-- POST /api/payments/create-bulk-payment-intent (routes/payments.js,
lines 130-342).  On success (resp = none, the clientSecret response) the
staged pixels are upserted into the Pixels table at quote time and one
pixelUpdate message is broadcast per staged pixel.  No row of
bulk_payment_pixels is ever written. -/
def createBulkPaymentIntent (cfg : Config) (s : GridState) (pixels : List BulkPixelReq)
    (totalAmount : Int) (ownerId ownerName : Option String) (now : Int) :
    RouteOut (Option BulkErr) :=
  match pixels with
  | [] => ⟨s, some .invalidPixels, []⟩
  | p0 :: _ =>
    if ownerId.isNone || ownerName.isNone then ⟨s, some .missingOwner, []⟩
    else
      match bulkValidate cfg s.pixels now pixels with
      | .error e => ⟨s, some e, []⟩
      | .ok expectedTotal =>
        if 10 < (expectedTotal - totalAmount).natAbs then ⟨s, some .totalMismatch, []⟩
        else
          let secExp : Option Int :=
            if p0.withSecurity then some (now + securityWindowDays) else none
          let staged := pixels.map (stagePixel s.pixels ownerId ownerName secExp now)
          ⟨{ s with pixels := staged.foldl applyStaged s.pixels }, none, staged.map bulkMsg⟩

/-- The distinct exits of PUT /:x/:y/link (routes/pixels.js): a 400 for
unparsable coordinates, a 404 when no pixel exists there, and the 200
response carrying the saved pixel. -/
inductive LinkResp where
  | invalidCoordinates
  | notFound
  | ok (pixel : Cell)
deriving Repr, DecidableEq

/-- PUT /api/pixels/:x/:y/link (routes/pixels.js, lines 298-325): parse the
coordinates, look the pixel up, set pixel.link and save.  No ownership,
payment or security check occurs. -/
def updateLink (s : GridState) (xr yr : Option Int) (link : Option String) :
    RouteOut LinkResp :=
  match xr, yr with
  | some x, some y =>
    match findPixel s.pixels x y with
    | none => ⟨s, .notFound, []⟩
    | some ex =>
      ⟨⟨updateAt s.pixels x y (fun c => { c with link := link }), s.history, s.bulkRows⟩,
       .ok { ex with link := link }, []⟩
  | _, _ => ⟨s, .invalidCoordinates, []⟩

/-- Decoded body of the POST / route variant that writes pixel history
(src/unnamed/part_003, router.post).  This variant validates required
fields with JS truthiness (so a price of 0 counts as missing) and performs
no coordinate parsing and no minimum-price or security check. -/
structure PostReqH where
  x : Option Int
  y : Option Int
  color : Option String
  price : Option Int
  ownerId : Option String
  ownerName : Option String
  paymentIntentId : Option String
  link : Option String
  withSecurity : Bool
deriving Repr, DecidableEq

/-- The distinct exits of the history-writing POST / variant. -/
inductive PostRespH where
  | missingFields
  | paymentNotSuccessful
  | ok (created : Bool)
deriving Repr, DecidableEq

/-- The PixelHistory.create call of src/unnamed/part_003: a snapshot of the
existing pixel fields taken before the overwrite; paymentIntentId reads a
column the Pixel model does not have, hence null; createdAt defaults to now. -/
def mkHistoryEntry (c : Cell) (now : Int) : HistoryEntry :=
  { x := c.x, y := c.y, color := c.color, price := c.price, ownerId := c.ownerId,
    ownerName := c.ownerName, link := c.link, isSecured := c.isSecured,
    securityExpiresAt := c.securityExpiresAt, paymentIntentId := none, createdAt := now }

/-- POST /api/pixels in the history-writing variant (src/unnamed/part_003,
router.post, lines 159-299): required-field validation, payment
verification, history snapshot of an existing pixel, findOrCreate/update,
broadcast.  The update writes the same field set as routes/pixels.js. -/
def postPixelH (s : GridState) (r : PostReqH) (stripeStatus : String → String) (now : Int) :
    RouteOut PostRespH :=
  if r.x.isNone || r.y.isNone || r.color.isNone || falsyNum r.price ||
     r.ownerId.isNone || r.ownerName.isNone then ⟨s, .missingFields, []⟩
  else
    match r.x, r.y, r.color, r.price, r.ownerId, r.ownerName with
    | some x, some y, some color, some price, some oid, some oname =>
      if stripeRejects r.paymentIntentId stripeStatus then ⟨s, .paymentNotSuccessful, []⟩
      else
        let secExp : Option Int := if r.withSecurity then some (now + securityWindowDays) else none
        let f : Cell → Cell := fun c =>
          { c with color := color, price := price, ownerId := some oid,
                   ownerName := some oname, link := r.link, lastUpdated := now,
                   isSecured := r.withSecurity, securityExpiresAt := secExp }
        match findPixel s.pixels x y with
        | some ex =>
          ⟨⟨updateAt s.pixels x y f, mkHistoryEntry ex now :: s.history, s.bulkRows⟩,
           .ok false, [postMsg (f ex)]⟩
        | none =>
          let c : Cell :=
            { x := x, y := y, color := color, price := price, ownerId := some oid,
              ownerName := some oname, link := r.link, isSecured := r.withSecurity,
              securityExpiresAt := secExp, lastUpdated := now }
          ⟨⟨s.pixels ++ [c], s.history, s.bulkRows⟩, .ok true, [postMsg c]⟩
    | _, _, _, _, _, _ => ⟨s, .missingFields, []⟩

/-- Modelled from the spec wording of minimumBid (pricing section) for
comparison with the inlined route logic: the configured floor price when
the cell is absent, the stored price plus the configured increment when it
is present (the source uses PIXEL_CONFIG.minPrice for both roles). -/
def minimumBid (cfg : Config) (existing : Option Cell) : Int :=
  match existing with
  | none => cfg.minPrice
  | some c => c.price + cfg.minPrice

/-- A concrete configuration for closed instances: minPrice one dollar. -/
def cfgW : Config := ⟨1000⟩

/-- An empty database. -/
def emptyGrid : GridState := ⟨[], [], []⟩

/-- A cell at (1, 2) stored at five dollars. -/
def c1state : GridState :=
  ⟨[⟨1, 2, "#000000", 5000, some "o", some "n", none, false, none, 0⟩], [], []⟩

/-- Metadata of a succeeded event targeting (1, 2). -/
def c1meta : WebhookMeta := ⟨some 1, some 2, some "#00ff00", some "p", some "P"⟩

/-- A cell at (3, 4) for the replay scenario. -/
def c2state : GridState :=
  ⟨[⟨3, 4, "#00aa00", 2000, some "v", some "V", none, false, none, 0⟩], [], []⟩

/-- Metadata of a succeeded event targeting (3, 4). -/
def c2meta : WebhookMeta := ⟨some 3, some 4, some "#0000ff", some "w", some "W"⟩

/-- A one-pixel bulk quote request for the unclaimed cell (1, 1). -/
def bulkReqOne : List BulkPixelReq := [⟨some 1, some 1, some "#ffffff", some 1000, false⟩]

/-- A cell at (1, 2) stored at two dollars, for the low-bid rejection. -/
def guardState : GridState :=
  ⟨[⟨1, 2, "#000000", 2000, some "o", some "n", none, false, none, 0⟩], [], []⟩

/-- A one-dollar bid on the cell of guardState. -/
def guardReq : PostReq := ⟨some 1, some 2, "#ffffff", 1000, some "b", some "B", none, none, false⟩

/-- A cell at (1, 1) protected at one dollar until time 100. -/
def secState : GridState :=
  ⟨[⟨1, 1, "#ff0000", 1000, some "o", some "n", none, true, some 100, 0⟩], [], []⟩

/-- A one-hundred-dollar bid (one hundred times the protected price) on the
protected cell of secState. -/
def overrideReq : PostReq :=
  ⟨some 1, some 1, "#0000ff", 100000, some "b", some "B", none, none, false⟩

/-- A staged bulk pixel bidding one hundred dollars (one hundred times the
protected price) on the protected cell of secState. -/
def secBulkReq : BulkPixelReq := ⟨some 1, some 1, some "#0000ff", some 100000, false⟩

/-- A quote request bidding the number zero. -/
def quoteZeroReq : QuoteReq := ⟨some 3, some 4, some "#ff0000", some 0, some "o", some "n"⟩

/-- A cell at (1, 2) stored at two dollars, for the minimum-bid instance. -/
def quoteWState : GridState :=
  ⟨[⟨1, 2, "#111111", 2000, some "q", some "Q", none, false, none, 0⟩], [], []⟩

/-- A quote bidding two and a half dollars on the cell of quoteWState. -/
def quoteWReq : QuoteReq := ⟨some 1, some 2, some "#222222", some 2500, some "o", some "n"⟩

/-- A cell at (6, 6) that already has one history entry. -/
def c6state : GridState :=
  ⟨[⟨6, 6, "#444444", 2500, some "h", some "H", none, false, none, 1⟩],
   [⟨6, 6, "#333333", 2000, some "g", some "G", none, false, none, none, 0⟩], []⟩

/-- Metadata of a succeeded event targeting (6, 6). -/
def c6meta : WebhookMeta := ⟨some 6, some 6, some "#555555", some "i", some "I"⟩

/-- A cell at (7, 7) for the history-writing overwrite instance. -/
def h6state : GridState :=
  ⟨[⟨7, 7, "#666666", 3000, some "m", some "M", none, false, none, 2⟩], [], []⟩

/-- A four-dollar takeover of the cell of h6state. -/
def h6req : PostReqH :=
  ⟨some 7, some 7, some "#777777", some 4000, some "u", some "U", none, none, false⟩

/-- Three cells staged by a buyer, one of which a rival overwrote at a
higher price between quote and settlement, with the staging row of the
session still in bulk_payment_pixels. -/
def c7state : GridState :=
  ⟨[⟨10, 10, "#b00000", 3000, some "buyer", some "Buyer", none, false, none, 1⟩,
    ⟨10, 11, "#b00000", 3000, some "buyer", some "Buyer", none, false, none, 1⟩,
    ⟨10, 12, "#c00000", 9000, some "rival", some "Rival", none, false, none, 2⟩],
   [], [⟨"cs_77", 10, 12, "#b00000", 3000, false, 1⟩]⟩

/-- Metadata of a succeeded event targeting the unclaimed cell (8, 9). -/
def c8meta : WebhookMeta := ⟨some 8, some 9, some "#0000aa", some "z", some "Z"⟩

/-- A request creating the unclaimed cell (2, 2). -/
def w8req : PostReq := ⟨some 2, some 2, "#111111", 1500, some "k", some "K", none, none, false⟩

/-- Three zero-price cells already owned by buyer b. -/
def freeState : GridState :=
  ⟨[⟨0, 0, "#aaaaaa", 0, some "b", some "B", none, false, none, 0⟩,
    ⟨0, 1, "#aaaaaa", 0, some "b", some "B", none, false, none, 0⟩,
    ⟨0, 2, "#aaaaaa", 0, some "b", some "B", none, false, none, 0⟩], [], []⟩

/-- A fourth zero-price placement by buyer b on the unclaimed cell (0, 3). -/
def fourthFreeReq : PostReq := ⟨some 0, some 3, "#abcabc", 0, some "b", some "B", none, none, false⟩

/-- A protected cell at (5, 6) carrying an old link. -/
def linkState : GridState :=
  ⟨[⟨5, 6, "#333333", 4000, some "w", some "W", some "http://old", true, some 50, 7⟩], [], []⟩

theorem findPixel_append_none {l₁ : List Cell} {x y : Int} (l₂ : List Cell)
    (h : findPixel l₁ x y = none) : findPixel (l₁ ++ l₂) x y = findPixel l₂ x y := by
  induction l₁ with
  | nil => simp
  | cons c t ih =>
    cases hc : (c.x == x && c.y == y) with
    | true => simp [findPixel, List.find?, hc] at h
    | false =>
      simp only [findPixel, List.find?, hc, List.cons_append] at h ⊢
      exact ih h

theorem updateAt_of_findPixel_none {l : List Cell} {x y : Int}
    (h : findPixel l x y = none) (f : Cell → Cell) : updateAt l x y f = l := by
  induction l with
  | nil => rfl
  | cons c t ih =>
    cases hc : (c.x == x && c.y == y) with
    | true => simp [findPixel, List.find?, hc] at h
    | false =>
      simp only [findPixel, List.find?, hc] at h
      simp only [updateAt, List.map_cons, hc, if_false, Bool.false_eq_true]
      simp only [updateAt] at ih
      rw [ih h]

theorem updateAt_append (l₁ l₂ : List Cell) (x y : Int) (f : Cell → Cell) :
    updateAt (l₁ ++ l₂) x y f = updateAt l₁ x y f ++ updateAt l₂ x y f := by
  simp [updateAt]

theorem findPixel_updateAt (l : List Cell) (x y : Int) (f : Cell → Cell)
    (hf : ∀ c, (f c).x = c.x ∧ (f c).y = c.y) :
    findPixel (updateAt l x y f) x y = (findPixel l x y).map f := by
  induction l with
  | nil => rfl
  | cons c t ih =>
    cases hc : (c.x == x && c.y == y) with
    | true =>
      have hfc : ((f c).x == x && (f c).y == y) = true := by
        simpa [(hf c).1, (hf c).2] using hc
      simp [updateAt, findPixel, List.find?, hc, hfc]
    | false =>
      simp only [updateAt, List.map_cons, hc, if_false, Bool.false_eq_true,
        findPixel, List.find?] at ih ⊢
      simpa [hc] using ih

theorem updateAt_updateAt (l : List Cell) (x y : Int) (f g : Cell → Cell)
    (hf : ∀ c, (f c).x = c.x ∧ (f c).y = c.y) :
    updateAt (updateAt l x y f) x y g = updateAt l x y (fun c => g (f c)) := by
  simp only [updateAt, List.map_map]
  apply List.map_congr_left
  intro c _
  cases hc : (c.x == x && c.y == y) with
  | true =>
    have hfc : ((f c).x == x && (f c).y == y) = true := by
      simpa [(hf c).1, (hf c).2] using hc
    simp [Function.comp, hc, hfc]
  | false => simp [Function.comp, hc]

theorem webhookUpd_coords (color oid oname : String) (price now : Int) :
    ∀ c : Cell, (webhookUpd color oid oname price now c).x = c.x ∧
      (webhookUpd color oid oname price now c).y = c.y :=
  fun _ => ⟨rfl, rfl⟩

theorem webhookApply_idem (px : List Cell) (x y : Int) (color oid oname : String)
    (price now : Int) :
    webhookApply (webhookApply px x y color oid oname price now) x y color oid oname price now =
      webhookApply px x y color oid oname price now := by
  unfold webhookApply
  rcases hfind : findPixel px x y with _ | ex
  · have hnew : findPixel (px ++ [webhookNewCell x y color oid oname price now]) x y =
        some (webhookNewCell x y color oid oname price now) := by
      rw [findPixel_append_none _ hfind]
      simp [findPixel, List.find?, webhookNewCell]
    simp only [hnew, updateAt_append, updateAt_of_findPixel_none hfind]
    simp [updateAt, webhookNewCell, webhookUpd]
  · have h2 := findPixel_updateAt px x y (webhookUpd color oid oname price now)
      (webhookUpd_coords color oid oname price now)
    rw [hfind] at h2
    simp only [h2, Option.map_some]
    rw [updateAt_updateAt px x y _ _ (webhookUpd_coords color oid oname price now)]
    rfl

/-- Claim C1, counterexample.  A succeeded settlement event for one dollar
against a cell stored at five dollars does not fail: it overwrites the cell
with the lower price (five thousand mils down to one thousand), so the
settlement path enforces no monotonicity and raises nothing like a
StaleWrite, contradicting the claim that such an attempt fails without
mutating the cell. -/
theorem C1_webhook_price_decrease :
    (findPixel c1state.pixels 1 2).map Cell.price = some 5000 ∧
    (findPixel (webhookSingle c1state c1meta 100 10).state.pixels 1 2).map Cell.price =
      some 1000 ∧
    (webhookSingle c1state c1meta 100 10).state.pixels ≠ c1state.pixels ∧
    (webhookSingle c1state c1meta 100 10).state.history = c1state.history := by decide

/-- Claim C1, amended.  Price monotonicity is enforced only by the
validation layer of the direct purchase route: when the pixel exists and
the bid is below stored price plus minPrice minus the epsilon, POST /
returns the price-too-low error and leaves the state unchanged with no
broadcast; the webhook settlement path applies the succeeded amount
unconditionally, so the stored price can decrease across settlements. -/
theorem C1_amended_quote_guard (cfg : Config) (s : GridState) (r : PostReq)
    (stripeStatus : String → String) (now x y : Int) (ex : Cell)
    (hx : r.x = some x) (hy : r.y = some y)
    (hfind : findPixel s.pixels x y = some ex)
    (hlow : r.price < ex.price + cfg.minPrice - 1) :
    (postPixel cfg s r stripeStatus now).state = s ∧
    (postPixel cfg s r stripeStatus now).msgs = [] ∧
    (securedActive ex now = false →
      (postPixel cfg s r stripeStatus now).resp = .priceTooLow ex.price) := by
  simp only [postPixel, hx, hy, hfind]
  cases hsec : securedActive ex now
  · simp [hsec, if_pos hlow]
  · simp [hsec]

/-- Claim C1, witness for the amended theorem: a one-dollar bid against a
two-dollar cell under a one-dollar minimum increment is rejected without
any mutation. -/
theorem C1_amended_quote_guard_witness :
    (postPixel cfgW guardState guardReq (fun _ => "succeeded") 5).state = guardState ∧
    (postPixel cfgW guardState guardReq (fun _ => "succeeded") 5).msgs = [] ∧
    (securedActive ⟨1, 2, "#000000", 2000, some "o", some "n", none, false, none, 0⟩ 5 = false →
      (postPixel cfgW guardState guardReq (fun _ => "succeeded") 5).resp = .priceTooLow 2000) :=
  C1_amended_quote_guard cfgW guardState guardReq (fun _ => "succeeded") 5 1 2
    ⟨1, 2, "#000000", 2000, some "o", some "n", none, false, none, 0⟩
    rfl rfl (by decide) (by decide)

/-- Claim C2, counterexample.  Delivering the same succeeded event twice is
not detected as a duplicate: the second delivery mutates the cell again
(lastUpdated moves from 10 to 20), and the two deliveries together write
zero HistoryEntry rows and push zero broadcast messages, against the
claimed one mutation, one HistoryEntry and one broadcast. -/
theorem C2_webhook_no_duplicate_check :
    (webhookSingle ((webhookSingle c2state c2meta 500 10).state) c2meta 500 20).state.pixels ≠
      (webhookSingle c2state c2meta 500 10).state.pixels ∧
    (webhookSingle ((webhookSingle c2state c2meta 500 10).state) c2meta 500 20).state.history =
      [] ∧
    (webhookSingle c2state c2meta 500 10).msgs = [] ∧
    (webhookSingle ((webhookSingle c2state c2meta 500 10).state) c2meta 500 20).msgs = [] := by
  decide

/-- Claim C2, amended.  The webhook stores and consults no settlementRef:
each delivery of a succeeded single-pixel event re-applies the update, the
path writes no history and broadcasts nothing, and replaying the identical
event at the same delivery timestamp reproduces the same state (the
re-application is idempotent only because the update is absolute). -/
theorem C2_amended_replay (s : GridState) (m : WebhookMeta) (amt now : Int) :
    (webhookSingle s m amt now).state.history = s.history ∧
    (webhookSingle s m amt now).msgs = [] ∧
    (webhookSingle (webhookSingle s m amt now).state m amt now).state =
      (webhookSingle s m amt now).state := by
  rcases m with ⟨mx, my, mc, mo, mn⟩
  cases mx with
  | none => simp [webhookSingle]
  | some x =>
  cases my with
  | none => simp [webhookSingle]
  | some y =>
  cases mc with
  | none => simp [webhookSingle]
  | some color =>
  cases mo with
  | none => simp [webhookSingle]
  | some oid =>
  cases mn with
  | none => simp [webhookSingle]
  | some oname =>
  refine ⟨rfl, rfl, ?_⟩
  simp [webhookSingle, webhookApply_idem]

/-- Claim C3, counterexample.  A successful bulk quote is not read-only:
quoting one unclaimed pixel already creates the Cell row and broadcasts a
pixelUpdate message at quote time, before any settlement. -/
theorem C3_bulk_quote_mutates :
    (createBulkPaymentIntent cfgW emptyGrid bulkReqOne 1000 (some "o") (some "n") 5).resp =
      none ∧
    (createBulkPaymentIntent cfgW emptyGrid bulkReqOne 1000 (some "o") (some "n") 5).state.pixels
      ≠ [] ∧
    (createBulkPaymentIntent cfgW emptyGrid bulkReqOne 1000 (some "o") (some "n") 5).msgs ≠ [] := by
  decide

/-- Claim C3, amended.  The single-cell quote route is read-only with
respect to the whole database (state unchanged, nothing broadcast); the
bulk quote route, by contrast, upserts every staged pixel and broadcasts
at quote time. -/
theorem C3_amended_single_quote_readonly (cfg : Config) (s : GridState) (r : QuoteReq) :
    (createPaymentIntent cfg s r).state = s ∧ (createPaymentIntent cfg s r).msgs = [] := by
  rcases r with ⟨rx, ry, rc, rp, ro, rn⟩
  simp only [createPaymentIntent]
  repeat' split
  all_goals simp

/-- Claim C4, counterexample.  A bid of one hundred times the protected
price on a cell under active protection is still rejected (and resets
nothing): no override multiple exists, contradicting the claimed
acceptance at or above the required multiple. -/
theorem C4_override_rejected :
    (postPixel cfgW secState overrideReq (fun _ => "succeeded") 10).resp =
      .securedRejection (some 100) ∧
    (postPixel cfgW secState overrideReq (fun _ => "succeeded") 10).state = secState ∧
    (findPixel secState.pixels 1 1).map Cell.price = some 1000 := by decide

/-- Claim C4, amended.  A cell under active protection (isSecured with an
unexpired securityExpiresAt) rejects every purchase attempt regardless of
the offered price, on both validated paths: the direct purchase route
returns the secured rejection with no state change, no broadcast and no
expiry reset, and the bulk quote validation stops at the securedPixel
error for any well-formed staged pixel targeting the protected cell, so
the whole bulk quote route rejects with no state change and no
broadcast. -/
theorem C4_amended_secured_rejects_all (cfg : Config) (s : GridState) (r : PostReq)
    (stripeStatus : String → String) (now x y : Int) (ex : Cell)
    (hx : r.x = some x) (hy : r.y = some y)
    (hfind : findPixel s.pixels x y = some ex)
    (hsec : securedActive ex now = true) :
    postPixel cfg s r stripeStatus now = ⟨s, .securedRejection ex.securityExpiresAt, []⟩ ∧
    (∀ (p : BulkPixelReq) (rest : List BulkPixelReq),
      p.x = some x → p.y = some y → falsyNum p.x = false → falsyNum p.y = false →
      p.color.isSome → falsyNum p.price = false →
      bulkValidate cfg s.pixels now (p :: rest) =
        .error (.securedPixel x y ex.securityExpiresAt)) ∧
    (∀ (p : BulkPixelReq) (rest : List BulkPixelReq) (amt : Int) (oid onm : String),
      p.x = some x → p.y = some y → falsyNum p.x = false → falsyNum p.y = false →
      p.color.isSome → falsyNum p.price = false →
      createBulkPaymentIntent cfg s (p :: rest) amt (some oid) (some onm) now =
        ⟨s, some (.securedPixel x y ex.securityExpiresAt), []⟩) := by
  have hbulk : ∀ (p : BulkPixelReq) (rest : List BulkPixelReq),
      p.x = some x → p.y = some y → falsyNum p.x = false → falsyNum p.y = false →
      p.color.isSome → falsyNum p.price = false →
      bulkValidate cfg s.pixels now (p :: rest) =
        .error (.securedPixel x y ex.securityExpiresAt) := by
    intro p rest hpx hpy hfx hfy hpc hfp
    obtain ⟨cv, hcv⟩ := Option.isSome_iff_exists.mp hpc
    rcases hrp : p.price with _ | pv
    · rw [hrp] at hfp; simp [falsyNum] at hfp
    rw [hrp] at hfp
    rw [hpx] at hfx
    rw [hpy] at hfy
    simp only [bulkValidate, hpx, hpy, hcv, hrp, hfx, hfy, hfp, hfind, hsec,
      Option.isNone_some, Bool.or_self, Bool.or_false, Bool.false_or, if_false,
      Bool.false_eq_true, if_true]
  refine ⟨by simp [postPixel, hx, hy, hfind, hsec], hbulk, ?_⟩
  intro p rest amt oid onm hpx hpy hfx hfy hpc hfp
  have hb := hbulk p rest hpx hpy hfx hfy hpc hfp
  simp [createBulkPaymentIntent, hb]

/-- Claim C4, witness for the amended theorem at the hundredfold bid:
rejected by the direct route, by the bulk validation loop, and by the whole
bulk quote route, all without mutation. -/
theorem C4_amended_secured_rejects_all_witness :
    postPixel cfgW secState overrideReq (fun _ => "succeeded") 10 =
      ⟨secState, .securedRejection (some 100), []⟩ ∧
    bulkValidate cfgW secState.pixels 10 [secBulkReq] =
      .error (.securedPixel 1 1 (some 100)) ∧
    createBulkPaymentIntent cfgW secState [secBulkReq] 100000 (some "b") (some "B") 10 =
      ⟨secState, some (.securedPixel 1 1 (some 100)), []⟩ := by
  have h := C4_amended_secured_rejects_all cfgW secState overrideReq (fun _ => "succeeded") 10 1 1
    ⟨1, 1, "#ff0000", 1000, some "o", some "n", none, true, some 100, 0⟩
    rfl rfl (by decide) (by decide)
  exact ⟨h.1,
    h.2.1 secBulkReq [] rfl rfl (by decide) (by decide) (by decide) (by decide),
    h.2.2 secBulkReq [] 100000 "b" "B" rfl rfl (by decide) (by decide) (by decide) (by decide)⟩

/-- Claim C5, counterexample.  A quote bidding the number zero on an
unclaimed cell is below the computed minimum (one dollar here), yet it
fails with the missing-fields response instead of the bid-too-low response
carrying that minimum, because JS truthiness counts a zero price as
missing. -/
theorem C5_zero_bid_not_bidtoolow :
    (createPaymentIntent cfgW emptyGrid quoteZeroReq).resp = .missingFields ["price"] ∧
    (0 : Int) < minimumBid cfgW (findPixel ([] : List Cell) 3 4) := by decide

/-- Claim C5, amended.  For a quote whose required fields are present and
whose bid is a positive number, the route computes the minimum exactly as
minimumBid (floor for an absent cell, stored price plus increment for an
existing one), rejects a bid below it with bid-too-low carrying that
minimum (and the current price when the cell exists), and proceeds to the
client secret otherwise; a missing, zero or non-positive bid instead fails
earlier with missing-fields or invalid-price. -/
theorem C5_amended_minimum_bid (cfg : Config) (s : GridState) (r : QuoteReq)
    (x y p : Int) (hx : r.x = some x) (hy : r.y = some y) (hp : r.price = some p)
    (hc : r.color.isSome) (ho : r.ownerId.isSome) (hpos : 0 < p) :
    (p < minimumBid cfg (findPixel s.pixels x y) →
      (createPaymentIntent cfg s r).resp =
        .bidTooLow (minimumBid cfg (findPixel s.pixels x y))
          ((findPixel s.pixels x y).map Cell.price)) ∧
    (minimumBid cfg (findPixel s.pixels x y) ≤ p →
      (createPaymentIntent cfg s r).resp = .clientSecret) := by
  obtain ⟨cv, hcv⟩ := Option.isSome_iff_exists.mp hc
  obtain ⟨ov, hov⟩ := Option.isSome_iff_exists.mp ho
  have hpz : (p == 0) = false := by simp; omega
  have hple : ¬ p ≤ 0 := by omega
  simp only [createPaymentIntent, hx, hy, hp, hcv, hov, falsyNum, hpz,
    Option.isNone_none, Option.isNone_some]
  rcases hfind : findPixel s.pixels x y with _ | ex <;>
    simp only [minimumBid, hfind, Option.map_none, Option.map_some] <;>
    constructor <;> intro hcmp <;>
    simp [hple, hcmp, not_lt.mpr, hcmp.not_lt]

/-- Claim C5, witness for the amended theorem: a bid of two and a half
dollars against a two-dollar cell with a one-dollar increment returns
bid-too-low carrying the three-dollar minimum and the current price. -/
theorem C5_amended_minimum_bid_witness :
    (createPaymentIntent cfgW quoteWState quoteWReq).resp = .bidTooLow 3000 (some 2000) :=
  (C5_amended_minimum_bid cfgW quoteWState quoteWReq 1 2 2500 rfl rfl rfl (by decide)
    (by decide) (by decide)).1 (by decide)

/-- Claim C6, counterexample.  A succeeded settlement event that overwrites
an existing cell through the webhook appends no HistoryEntry: the cell
mutates while the history table keeps its single old row. -/
theorem C6_webhook_overwrite_no_history :
    (webhookSingle c6state c6meta 900 12).state.pixels ≠ c6state.pixels ∧
    (webhookSingle c6state c6meta 900 12).state.history = c6state.history ∧
    c6state.history.length = 1 := by decide

/-- Claim C6, amended.  The history-writing POST / variant appends exactly
one HistoryEntry per overwrite, and that entry snapshots every prior field
of the overwritten cell; no modelled operation ever removes or rewrites
existing history rows (each leaves the history untouched or prepends one
entry).  The webhook settlement path is among those that write nothing. -/
theorem C6_amended_history (s : GridState) (r : PostReqH) (stripeStatus : String → String)
    (now x y : Int) (ex : Cell)
    (hx : r.x = some x) (hy : r.y = some y) (hc : r.color.isSome)
    (hp : falsyNum r.price = false) (ho : r.ownerId.isSome) (hn : r.ownerName.isSome)
    (hpay : stripeRejects r.paymentIntentId stripeStatus = false)
    (hfind : findPixel s.pixels x y = some ex) :
    (postPixelH s r stripeStatus now).state.history = mkHistoryEntry ex now :: s.history ∧
    ((mkHistoryEntry ex now).x = ex.x ∧ (mkHistoryEntry ex now).y = ex.y ∧
     (mkHistoryEntry ex now).color = ex.color ∧ (mkHistoryEntry ex now).price = ex.price ∧
     (mkHistoryEntry ex now).ownerId = ex.ownerId ∧
     (mkHistoryEntry ex now).ownerName = ex.ownerName ∧
     (mkHistoryEntry ex now).link = ex.link ∧
     (mkHistoryEntry ex now).isSecured = ex.isSecured ∧
     (mkHistoryEntry ex now).securityExpiresAt = ex.securityExpiresAt ∧
     (mkHistoryEntry ex now).createdAt = now) ∧
    (∀ s₂ xr yr l, (updateLink s₂ xr yr l).state.history = s₂.history) ∧
    (∀ cfg s₂ r₂ f n, (postPixel cfg s₂ r₂ f n).state.history = s₂.history) ∧
    (∀ s₂ m a n, (webhookSingle s₂ m a n).state.history = s₂.history) ∧
    (∀ cfg s₂ pxs amt o nm t,
      (createBulkPaymentIntent cfg s₂ pxs amt o nm t).state.history = s₂.history) ∧
    (∀ s₂ r₂ f n, (postPixelH s₂ r₂ f n).state.history = s₂.history ∨
      ∃ e, (postPixelH s₂ r₂ f n).state.history = e :: s₂.history) := by
  obtain ⟨cv, hcv⟩ := Option.isSome_iff_exists.mp hc
  obtain ⟨ov, hov⟩ := Option.isSome_iff_exists.mp ho
  obtain ⟨nv, hnv⟩ := Option.isSome_iff_exists.mp hn
  rcases hrp : r.price with _ | pv
  · rw [hrp] at hp; simp [falsyNum] at hp
  refine ⟨?_, ⟨rfl, rfl, rfl, rfl, rfl, rfl, rfl, rfl, rfl, rfl⟩, ?_, ?_, ?_, ?_, ?_⟩
  · rw [hrp] at hp
    simp only [postPixelH, hx, hy, hcv, hrp, hov, hnv, hp, hpay, hfind,
      Option.isNone_some, Bool.false_or, Bool.or_false, Bool.or_self, if_false,
      Bool.false_eq_true]
  · intro s₂ xr yr l
    cases xr <;> cases yr <;> (simp only [updateLink]; repeat' split) <;> rfl
  · intro cfg s₂ r₂ f n
    rcases r₂ with ⟨rx, ry, rc, rp, ro, rn, rpi, rl, rw⟩
    simp only [postPixel]
    repeat' split
    all_goals simp [postFinishExisting, postFinishNew]
  · intro s₂ m a n
    rcases m with ⟨mx, my, mc, mo, mn⟩
    simp only [webhookSingle]
    repeat' split
    all_goals rfl
  · intro cfg s₂ pxs amt o nm t
    simp only [createBulkPaymentIntent]
    repeat' split
    all_goals rfl
  · intro s₂ r₂ f n
    simp only [postPixelH]
    repeat' split
    all_goals first
      | exact Or.inl rfl
      | exact Or.inr ⟨_, rfl⟩

/-- Claim C6, witness for the amended theorem: a four-dollar takeover of
the cell at (7, 7) prepends exactly the snapshot of that cell. -/
theorem C6_amended_history_witness :
    (postPixelH h6state h6req (fun _ => "succeeded") 9).state.history =
      mkHistoryEntry ⟨7, 7, "#666666", 3000, some "m", some "M", none, false, none, 2⟩ 9 ::
        h6state.history :=
  (C6_amended_history h6state h6req (fun _ => "succeeded") 9 7 7
    ⟨7, 7, "#666666", 3000, some "m", some "M", none, false, none, 2⟩
    rfl rfl (by decide) (by decide) (by decide) (by decide) (by decide) (by decide)).1

/-- Claim C7, counterexample.  Settling a bulk payment whose three staged
cells include one that a rival overwrote applies nothing at settlement
time and deletes nothing: the webhook bulk branch leaves the whole state,
including the pixels and the staging row in bulk_payment_pixels,
exactly as it found it, against the claimed two applications, one recorded
StaleWrite and session deletion. -/
theorem C7_bulk_settlement_noop :
    (webhookBulk c7state (some "buyer") (some "Buyer") "pi_77").state = c7state ∧
    c7state.bulkRows ≠ [] ∧
    (webhookBulk c7state (some "buyer") (some "Buyer") "pi_77").state.bulkRows =
      c7state.bulkRows := by decide

/-- Claim C7, amended.  Bulk settlement runs no per-cell logic: the webhook
bulk branch only reads and never changes the state (so re-delivery is
trivially without effect), and no modelled route ever writes or deletes a
bulk_payment_pixels row — the staged cells were already upserted by the
bulk quote itself. -/
theorem C7_amended_bulk (s : GridState) (oid oname : Option String) (pid : String) :
    webhookBulk s oid oname pid = ⟨s, oid.isSome && oname.isSome, []⟩ ∧
    (∀ cfg pxs amt o nm t,
      (createBulkPaymentIntent cfg s pxs amt o nm t).state.bulkRows = s.bulkRows) ∧
    (∀ cfg r f t, (postPixel cfg s r f t).state.bulkRows = s.bulkRows) ∧
    (∀ m amt t, (webhookSingle s m amt t).state.bulkRows = s.bulkRows) := by
  refine ⟨?_, ?_, ?_, ?_⟩
  · cases oid <;> cases oname <;> simp [webhookBulk]
  · intro cfg pxs amt o nm t
    simp only [createBulkPaymentIntent]
    repeat' split
    all_goals simp
  · intro cfg r f t
    rcases r with ⟨rx, ry, rc, rp, ro, rn, rpi, rl, rw⟩
    simp only [postPixel]
    repeat' split
    all_goals simp [postFinishExisting, postFinishNew]
  · intro m amt t
    rcases m with ⟨mx, my, mc, mo, mn⟩
    simp only [webhookSingle]
    repeat' split
    all_goals simp

/-- Claim C8, counterexample.  A settlement that reaches the applied state
through the webhook (here creating the cell at (8, 9)) pushes no fan-out
message at all, against the claimed one message per applied cell. -/
theorem C8_webhook_applied_no_broadcast :
    (webhookSingle emptyGrid c8meta 700 3).state.pixels ≠ [] ∧
    (webhookSingle emptyGrid c8meta 700 3).msgs = [] := by decide

/-- Claim C8, amended.  The direct purchase route emits exactly one
pixelUpdate message per applied settlement, and that message carries x, y,
color, price, ownerId, ownerName, lastUpdated and link but no protection
fields; the bulk quote path emits one message per staged cell carrying the
protection fields but no link; the webhook settlement paths emit
nothing. -/
theorem C8_amended_broadcast :
    (∀ cfg s r f now b, (postPixel cfg s r f now).resp = .ok b →
      ∃ c, (postPixel cfg s r f now).msgs = [postMsg c]) ∧
    (∀ c, (postMsg c).link = some c.link ∧ (postMsg c).isSecured = none ∧
      (postMsg c).securityExpiresAt = none) ∧
    (∀ s m amt now, (webhookSingle s m amt now).msgs = []) ∧
    (∀ cfg s pxs amt o nm t, (createBulkPaymentIntent cfg s pxs amt o nm t).resp = none →
      (createBulkPaymentIntent cfg s pxs amt o nm t).msgs.length = pxs.length) ∧
    (∀ c, (bulkMsg c).link = none ∧ (bulkMsg c).isSecured = some c.isSecured ∧
      (bulkMsg c).securityExpiresAt = some c.securityExpiresAt) := by
  refine ⟨?_, fun c => ⟨rfl, rfl, rfl⟩, ?_, ?_, fun c => ⟨rfl, rfl, rfl⟩⟩
  · intro cfg s r f now b
    rcases r with ⟨rx, ry, rc, rp, ro, rn, rpi, rl, rw⟩
    simp only [postPixel]
    repeat' split
    all_goals intro h
    all_goals simp only [postFinishExisting, postFinishNew] at h ⊢
    all_goals first
      | exact ⟨_, rfl⟩
      | simp at h
  · intro s m amt now
    rcases m with ⟨mx, my, mc, mo, mn⟩
    simp only [webhookSingle]
    repeat' split
    all_goals rfl
  · intro cfg s pxs amt o nm t
    simp only [createBulkPaymentIntent]
    repeat' split
    all_goals intro h
    all_goals simp_all [List.length_map]

/-- Claim C8, witness for the amended theorem: creating the cell at (2, 2)
broadcasts exactly one pixelUpdate message of the POST shape. -/
theorem C8_amended_broadcast_witness :
    ∃ c, (postPixel cfgW emptyGrid w8req (fun _ => "succeeded") 4).msgs = [postMsg c] := by
  have h : (postPixel cfgW emptyGrid w8req (fun _ => "succeeded") 4).resp = PostResp.ok true := by
    decide
  exact C8_amended_broadcast.1 cfgW emptyGrid w8req (fun _ => "succeeded") 4 true h

/-- Claim C9, counterexample.  A buyer who already owns three zero-price
cells (the claimed configured maximum) places a fourth zero-price cell
through the purchase route and it succeeds, raising the server-side count
to four: no cap and no bid-too-low rejection exists on the server. -/
theorem C9_fourth_free_pixel_accepted :
    freeCount freeState "b" = 3 ∧
    (postPixel cfgW freeState fourthFreeReq (fun _ => "succeeded") 9).resp = .ok true ∧
    freeCount (postPixel cfgW freeState fourthFreeReq (fun _ => "succeeded") 9).state "b" = 4 := by
  decide

/-- Claim C9, amended.  The server derives the zero-price count from stored
ownership data (freeCount counts the buyer cells priced exactly zero), but
enforces no cap: a zero-price placement on an unclaimed cell through the
purchase route succeeds whatever the buyer current count is, and increments
that count by one. -/
theorem C9_amended_free_allocation (cfg : Config) (s : GridState) (r : PostReq)
    (stripeStatus : String → String) (now x y : Int) (b : String)
    (hx : r.x = some x) (hy : r.y = some y)
    (hfind : findPixel s.pixels x y = none)
    (hpay : r.paymentIntentId = none)
    (hzero : r.price = 0) (hb : r.ownerId = some b) :
    (postPixel cfg s r stripeStatus now).resp = .ok true ∧
    freeCount (postPixel cfg s r stripeStatus now).state b = freeCount s b + 1 := by
  simp only [postPixel, hx, hy, hfind, stripeRejects, hpay]
  constructor
  · simp [postFinishNew]
  · simp [postFinishNew, freeCount, List.filter_append, hzero, hb]

/-- Claim C9, witness for the amended theorem at the fourth zero-price
placement of buyer b. -/
theorem C9_amended_free_allocation_witness :
    (postPixel cfgW freeState fourthFreeReq (fun _ => "succeeded") 9).resp = .ok true ∧
    freeCount (postPixel cfgW freeState fourthFreeReq (fun _ => "succeeded") 9).state "b" =
      freeCount freeState "b" + 1 :=
  C9_amended_free_allocation cfgW freeState fourthFreeReq (fun _ => "succeeded") 9 0 3 "b"
    rfl rfl (by decide) rfl rfl rfl

/-- Claim C10, counterexample.  A link update with a non-integer x
coordinate returns the invalid-coordinates response, which is distinct
from the not-found response the claim names; nothing is mutated. -/
theorem C10_nan_coords_bad_request :
    (updateLink linkState none (some 6) (some "http://new")).resp = .invalidCoordinates ∧
    (updateLink linkState none (some 6) (some "http://new")).resp ≠ .notFound ∧
    (updateLink linkState none (some 6) (some "http://new")).state = linkState := by decide

/-- Claim C10, amended.  The link update route is unguarded and
frame-limited: unparsable coordinates yield the invalid-coordinates error
without mutation, an absent cell yields not-found without mutation, and on
an existing cell it rewrites only the link field — every other field of
every row, the history and the staging table are untouched, with no
ownership, payment or protection check and no broadcast. -/
theorem C10_amended_link_update (s : GridState) (xr yr : Option Int) (lnk : Option String) :
    ((xr = none ∨ yr = none) → updateLink s xr yr lnk = ⟨s, .invalidCoordinates, []⟩) ∧
    (∀ x y, xr = some x → yr = some y → findPixel s.pixels x y = none →
      updateLink s xr yr lnk = ⟨s, .notFound, []⟩) ∧
    (∀ x y ex, xr = some x → yr = some y → findPixel s.pixels x y = some ex →
      updateLink s xr yr lnk =
        ⟨⟨updateAt s.pixels x y (fun c => { c with link := lnk }), s.history, s.bulkRows⟩,
         .ok { ex with link := lnk }, []⟩) ∧
    (∀ c : Cell, ({ c with link := lnk } : Cell).x = c.x ∧
      ({ c with link := lnk } : Cell).y = c.y ∧
      ({ c with link := lnk } : Cell).color = c.color ∧
      ({ c with link := lnk } : Cell).price = c.price ∧
      ({ c with link := lnk } : Cell).ownerId = c.ownerId ∧
      ({ c with link := lnk } : Cell).ownerName = c.ownerName ∧
      ({ c with link := lnk } : Cell).isSecured = c.isSecured ∧
      ({ c with link := lnk } : Cell).securityExpiresAt = c.securityExpiresAt ∧
      ({ c with link := lnk } : Cell).lastUpdated = c.lastUpdated ∧
      ({ c with link := lnk } : Cell).link = lnk) := by
  refine ⟨?_, ?_, ?_, ?_⟩
  · rintro (h | h)
    · subst h; cases yr <;> simp [updateLink]
    · subst h; cases xr <;> simp [updateLink]
  · rintro x y rfl rfl hfind
    simp [updateLink, hfind]
  · rintro x y ex rfl rfl hfind
    simp [updateLink, hfind]
  · intro c
    exact ⟨rfl, rfl, rfl, rfl, rfl, rfl, rfl, rfl, rfl, rfl⟩

/-- Claim C10, witness for the amended theorem: updating the link of the
protected cell at (5, 6) rewrites only that link. -/
theorem C10_amended_link_update_witness :
    updateLink linkState (some 5) (some 6) (some "http://new") =
      ⟨⟨updateAt linkState.pixels 5 6 (fun c => { c with link := some "http://new" }),
        linkState.history, linkState.bulkRows⟩,
       .ok { x := 5, y := 6, color := "#333333", price := 4000, ownerId := some "w",
             ownerName := some "W", link := some "http://new", isSecured := true,
             securityExpiresAt := some 50, lastUpdated := 7 }, []⟩ :=
  (C10_amended_link_update linkState (some 5) (some 6) (some "http://new")).2.2.1 5 6
    ⟨5, 6, "#333333", 4000, some "w", some "W", some "http://old", true, some 50, 7⟩
    rfl rfl (by decide)
